import Mathlib

/-!
Verification development for the EUDA Remediation Tool's heuristic core:
the complexity scorer and rating (euda-remediation-app.py,
`ExcelAnalyzer._calculate_complexity_score` / `_get_complexity_rating`), and
the utility heuristics of euda-utils.py (`convert_excel_formula_to_pandas`,
`extract_data_sources_from_vba`, `estimate_remediation_difficulty`,
`create_data_model_recommendation`).

Python strings are modelled as `String`/`List Char`; Python float scores are
modelled as `ℚ` (the two literals involved, `0.5` and `/ 100`, are exact in
the claims proved here, which concern bounds, monotonicity and band
membership, not rounding). Python substring tests (`sub in text`) and the
specific regular expressions of the source are implemented directly as
executable character-list scanners.
-/

namespace EUDA

/-- Prefix test on character lists: `leadsWith p l` is true when `p` is an
initial segment of `l` (used for Python's substring membership test). -/
def leadsWith : List Char → List Char → Bool
  | [], _ => true
  | _ :: _, [] => false
  | p :: ps, c :: cs => p == c && leadsWith ps cs

/-- Python's `needle in hay` substring test on character lists. -/
def containsSub (hay needle : List Char) : Bool :=
  match hay with
  | [] => needle.isEmpty
  | _ :: t => leadsWith needle hay || containsSub t needle

/-- Python's `str.lower()` restricted to ASCII (all source keywords and all
inputs in the claims are ASCII). -/
def lowerChars (l : List Char) : List Char :=
  l.map Char.toLower

/-- Records of `analysis["formulas"]`: dicts `{sheet, address, formula}`
built in `ExcelAnalyzer.analyze_excel_file`. -/
structure FormulaRec where
  sheet : String
  address : String
  formula : String
deriving DecidableEq

/-- Records of `analysis["vba_modules"]`: dicts `{name, type, code}`
built in `ExcelAnalyzer.analyze_excel_file` (`type` is an integer COM
component type, unused by the scorer). -/
structure VbaModule where
  name : String
  mtype : Nat
  code : String
deriving DecidableEq

/-- Records of `analysis["connections"]`: dicts
`{name, description, connection_string}`. -/
structure ConnectionRec where
  name : String
  description : String
  connection_string : String
deriving DecidableEq

/-- The analysis dict consumed by `_calculate_complexity_score` and
`create_data_model_recommendation`: the workbook snapshot fields of
`ExcelAnalyzer.analyze_excel_file`. -/
structure Analysis where
  sheet_count : Nat
  sheet_names : List String
  formula_count : Nat
  formulas : List FormulaRec
  vba_module_count : Nat
  vba_modules : List VbaModule
  connection_count : Nat
  connections : List ConnectionRec

/-- The advanced-function keyword list of `_calculate_complexity_score`. -/
def advancedFunctions : List String :=
  ["vlookup", "hlookup", "index", "match", "indirect",
   "offset", "sumifs", "countifs", "averageifs", "if"]

/-- One iteration of the complex-formula loop of
`_calculate_complexity_score`: the lowered formula text contains one of the
advanced function keywords. -/
def isComplexFormula (f : FormulaRec) : Bool :=
  advancedFunctions.any fun fn => containsSub (lowerChars f.formula.data) fn.data

/-- `complex_formula_count` of `_calculate_complexity_score`. -/
def complexFormulaCount (fs : List FormulaRec) : Nat :=
  fs.countP isComplexFormula

/-- The per-module `vba_complexity` contribution of
`_calculate_complexity_score`: +5 for `createobject`/`getobject`, +10 for
`adodb`, +10 for `sql` in the lowered module code. -/
def moduleRisk (m : VbaModule) : Nat :=
  let code := lowerChars m.code.data
  (if containsSub code "createobject".data || containsSub code "getobject".data
    then 5 else 0)
  + (if containsSub code "adodb".data then 10 else 0)
  + (if containsSub code "sql".data then 10 else 0)

/-- `vba_complexity` of `_calculate_complexity_score`: sum of the per-module
risk-keyword contributions. -/
def vbaComplexity (ms : List VbaModule) : Nat :=
  (ms.map moduleRisk).sum

/-- `vba_code_length` of `_calculate_complexity_score`: total character
length of all module sources. -/
def vbaCodeLength (ms : List VbaModule) : Nat :=
  (ms.map fun m => m.code.length).sum

/-- `ExcelAnalyzer._calculate_complexity_score`: sum of individually capped
contributions, capped at 100 after summation. -/
def calcComplexityScore (a : Analysis) : ℚ :=
  let score : ℚ :=
    min ((a.sheet_count : ℚ) * 5) 30
    + min ((a.formula_count : ℚ) * 0.5) 30
    + min ((a.vba_module_count : ℚ) * 10) 40
    + min ((complexFormulaCount a.formulas : ℚ) * 2) 20
    + min ((a.connection_count : ℚ) * 15) 30
    + min ((vbaCodeLength a.vba_modules : ℚ) / 100) 20
    + min ((vbaComplexity a.vba_modules : ℚ)) 30
  min score 100

/-- The same score as a function of the seven contributing counts (sheets,
formulas, VBA modules, advanced formulas, connections, total macro source
length, risk-keyword points), for stating monotonicity in each factor. -/
def complexityScoreOfCounts (s f v c k l r : Nat) : ℚ :=
  min (min ((s : ℚ) * 5) 30 + min ((f : ℚ) * 0.5) 30 + min ((v : ℚ) * 10) 40
    + min ((c : ℚ) * 2) 20 + min ((k : ℚ) * 15) 30 + min ((l : ℚ) / 100) 20
    + min ((r : ℚ)) 30) 100

/-- `ExcelAnalyzer._get_complexity_rating`. -/
def getComplexityRating (score : ℚ) : String :=
  if score < 20 then "Simple"
  else if score < 40 then "Basic"
  else if score < 60 then "Moderate"
  else if score < 80 then "Complex"
  else "Very Complex"

/-- C1: for every workbook snapshot the complexity score is exactly the sum
of the seven independently capped contributions (sheets ×5 cap 30, formulas
×0.5 cap 30, VBA modules ×10 cap 40, advanced formulas ×2 cap 20,
connections ×15 cap 30, macro source length ÷100 cap 20, macro risk keywords
cap 30) capped at 100 after summation, and that score lies in [0, 100]. -/
theorem complexity_score_formula_and_range (a : Analysis) :
    calcComplexityScore a =
      min (min ((a.sheet_count : ℚ) * 5) 30
        + min ((a.formula_count : ℚ) * 0.5) 30
        + min ((a.vba_module_count : ℚ) * 10) 40
        + min ((complexFormulaCount a.formulas : ℚ) * 2) 20
        + min ((a.connection_count : ℚ) * 15) 30
        + min ((vbaCodeLength a.vba_modules : ℚ) / 100) 20
        + min ((vbaComplexity a.vba_modules : ℚ)) 30) 100
    ∧ 0 ≤ calcComplexityScore a ∧ calcComplexityScore a ≤ 100 := by
  refine ⟨rfl, ?_, ?_⟩
  · unfold calcComplexityScore
    have h0 : (0 : ℚ) ≤ (a.sheet_count : ℚ) * 5 := by positivity
    have h1 : (0 : ℚ) ≤ (a.formula_count : ℚ) * 0.5 := by positivity
    have h2 : (0 : ℚ) ≤ (a.vba_module_count : ℚ) * 10 := by positivity
    have h3 : (0 : ℚ) ≤ (complexFormulaCount a.formulas : ℚ) * 2 := by positivity
    have h4 : (0 : ℚ) ≤ (a.connection_count : ℚ) * 15 := by positivity
    have h5 : (0 : ℚ) ≤ (vbaCodeLength a.vba_modules : ℚ) / 100 := by positivity
    have h6 : (0 : ℚ) ≤ (vbaComplexity a.vba_modules : ℚ) := by positivity
    have : (0 : ℚ) ≤ min ((a.sheet_count : ℚ) * 5) 30
        + min ((a.formula_count : ℚ) * 0.5) 30
        + min ((a.vba_module_count : ℚ) * 10) 40
        + min ((complexFormulaCount a.formulas : ℚ) * 2) 20
        + min ((a.connection_count : ℚ) * 15) 30
        + min ((vbaCodeLength a.vba_modules : ℚ) / 100) 20
        + min ((vbaComplexity a.vba_modules : ℚ)) 30 := by
      have := le_min h0 (by norm_num : (0 : ℚ) ≤ 30)
      have := le_min h1 (by norm_num : (0 : ℚ) ≤ 30)
      have := le_min h2 (by norm_num : (0 : ℚ) ≤ 40)
      have := le_min h3 (by norm_num : (0 : ℚ) ≤ 20)
      have := le_min h4 (by norm_num : (0 : ℚ) ≤ 30)
      have := le_min h5 (by norm_num : (0 : ℚ) ≤ 20)
      have := le_min h6 (by norm_num : (0 : ℚ) ≤ 30)
      linarith
    exact le_min this (by norm_num)
  · unfold calcComplexityScore
    exact min_le_right _ _

/-- C2: the complexity score is monotonically non-decreasing in each of its
seven contributing counts (stated jointly: pointwise larger counts give a
score at least as large), and `calcComplexityScore` factors through the
count-level function, so the statement covers the snapshot-level score. -/
theorem complexity_score_monotone
    (s1 f1 v1 c1 k1 l1 r1 s2 f2 v2 c2 k2 l2 r2 : Nat)
    (hs : s1 ≤ s2) (hf : f1 ≤ f2) (hv : v1 ≤ v2) (hc : c1 ≤ c2)
    (hk : k1 ≤ k2) (hl : l1 ≤ l2) (hr : r1 ≤ r2) :
    (∀ a : Analysis, calcComplexityScore a =
      complexityScoreOfCounts a.sheet_count a.formula_count a.vba_module_count
        (complexFormulaCount a.formulas) a.connection_count
        (vbaCodeLength a.vba_modules) (vbaComplexity a.vba_modules))
    ∧ complexityScoreOfCounts s1 f1 v1 c1 k1 l1 r1
        ≤ complexityScoreOfCounts s2 f2 v2 c2 k2 l2 r2 := by
  constructor
  · intro a; rfl
  · unfold complexityScoreOfCounts
    gcongr

/-- Witness for C2 at concrete counts. -/
theorem complexity_score_monotone_witness :
    complexityScoreOfCounts 1 1 1 1 1 100 5
      ≤ complexityScoreOfCounts 2 3 2 2 1 250 5 :=
  (complexity_score_monotone 1 1 1 1 1 100 5 2 3 2 2 1 250 5
    (by decide) (by decide) (by decide) (by decide)
    (by decide) (by decide) (by decide)).2

/-- C3: the complexity rating is the five-band step function of the score
with thresholds 20/40/60/80, and the boundary score 20 rates "Basic". -/
theorem complexity_rating_bands (s : ℚ) :
    (s < 20 → getComplexityRating s = "Simple")
    ∧ (20 ≤ s ∧ s < 40 → getComplexityRating s = "Basic")
    ∧ (40 ≤ s ∧ s < 60 → getComplexityRating s = "Moderate")
    ∧ (60 ≤ s ∧ s < 80 → getComplexityRating s = "Complex")
    ∧ (80 ≤ s → getComplexityRating s = "Very Complex")
    ∧ getComplexityRating 20 = "Basic" := by
  refine ⟨?_, ?_, ?_, ?_, ?_, ?_⟩ <;>
    first
      | (intro h; unfold getComplexityRating;
         split_ifs <;> first | rfl | (exfalso; rcases h with ⟨h1, h2⟩ <;> linarith) | (exfalso; linarith))
      | (unfold getComplexityRating; norm_num)

/-- The analysis fields read by `estimate_remediation_difficulty` (well-formed
input: all keys present, so the `dict.get` defaults never fire). -/
structure DiffAnalysis where
  complexity_score : ℚ
  vba_module_count : Nat
  connection_count : Nat
  formulas : List FormulaRec

/-- The advanced-function keyword list of `estimate_remediation_difficulty`
(narrower than the complexity scorer's list). -/
def advancedDiffFunctions : List String :=
  ["vlookup", "index", "match", "indirect", "offset"]

/-- `advanced_function_count` of `estimate_remediation_difficulty`. -/
def advancedFunctionCount (fs : List FormulaRec) : Nat :=
  fs.countP fun f =>
    advancedDiffFunctions.any fun fn => containsSub (lowerChars f.formula.data) fn.data

/-- The rating if-chain at the end of `estimate_remediation_difficulty`. -/
def difficultyRating (score : ℚ) : String :=
  if score < 30 then "Easy"
  else if score < 60 then "Moderate"
  else if score < 80 then "Difficult"
  else "Very Difficult"

/-- `estimate_remediation_difficulty`: sequential accumulation of the score
and of the reasons list, mirroring the source's `score +=` / `reasons.append`
statements, returning `(score, rating, reasons)`. -/
def estimateRemediationDifficulty (a : DiffAnalysis) :
    ℚ × String × List String :=
  let score0 : ℚ := 0 + a.complexity_score * 0.5
  let reasons0 : List String := []
  let score1 := if 0 < a.vba_module_count
    then score0 + min ((a.vba_module_count : ℚ) * 5) 20 else score0
  let reasons1 := if 0 < a.vba_module_count
    then reasons0 ++ ["Contains " ++ toString a.vba_module_count ++ " VBA modules"]
    else reasons0
  let score2 := if 0 < a.connection_count
    then score1 + min ((a.connection_count : ℚ) * 5) 15 else score1
  let reasons2 := if 0 < a.connection_count
    then reasons1 ++ ["Has " ++ toString a.connection_count ++ " external data connections"]
    else reasons1
  let afc := advancedFunctionCount a.formulas
  let score3 := if 0 < afc then score2 + min ((afc : ℚ)) 15 else score2
  let reasons3 := if 0 < afc
    then reasons2 ++ ["Uses " ++ toString afc ++ " advanced Excel functions"]
    else reasons2
  (score3, difficultyRating score3, reasons3)

/-- A concrete difficulty input for C5's example: 2 VBA modules, 0
connections, and 3 formulas each using an advanced function. -/
def exampleDiffAnalysis : DiffAnalysis :=
  { complexity_score := 50
    vba_module_count := 2
    connection_count := 0
    formulas :=
      [⟨"Sheet1", "$A$1", "=VLOOKUP(A1,B:C,2,FALSE)"⟩,
       ⟨"Sheet1", "$A$2", "=INDEX(B:B,3)"⟩,
       ⟨"Sheet1", "$A$3", "=MATCH(C1,D:D,0)"⟩] }

/-- C4: the difficulty score equals complexity × 0.5 plus the three guarded
capped contributions (modules ×5 cap 20, connections ×5 cap 15, advanced
formulas ×1 cap 15), and the returned rating is the 30/60/80 step function
of that score. -/
theorem difficulty_score_formula_and_bands (a : DiffAnalysis) :
    ((estimateRemediationDifficulty a).1 =
      a.complexity_score * 0.5
      + (if 0 < a.vba_module_count then min ((a.vba_module_count : ℚ) * 5) 20 else 0)
      + (if 0 < a.connection_count then min ((a.connection_count : ℚ) * 5) 15 else 0)
      + (if 0 < advancedFunctionCount a.formulas
          then min ((advancedFunctionCount a.formulas : ℚ)) 15 else 0))
    ∧ (estimateRemediationDifficulty a).2.1 =
        difficultyRating (estimateRemediationDifficulty a).1
    ∧ (∀ x : ℚ,
        (x < 30 → difficultyRating x = "Easy")
        ∧ (30 ≤ x ∧ x < 60 → difficultyRating x = "Moderate")
        ∧ (60 ≤ x ∧ x < 80 → difficultyRating x = "Difficult")
        ∧ (80 ≤ x → difficultyRating x = "Very Difficult")) := by
  refine ⟨?_, rfl, ?_⟩
  · simp only [estimateRemediationDifficulty]
    split_ifs <;> ring
  · intro x
    refine ⟨?_, ?_, ?_, ?_⟩ <;>
      (intro h; unfold difficultyRating;
       split_ifs <;>
         first
           | rfl
           | (exfalso; rcases h with ⟨h1, h2⟩ <;> linarith)
           | (exfalso; linarith))

/-- C5: the reasons list is exactly the concatenation of one entry per
non-zero contributing factor in the fixed order macros, connections,
advanced formulas; the 2-module/0-connection/3-advanced-formula example
yields exactly the macro reason then the advanced-formula reason, and an
input with all three counts zero yields no reasons. -/
theorem difficulty_reasons_per_factor (a : DiffAnalysis) :
    ((estimateRemediationDifficulty a).2.2 =
      (if 0 < a.vba_module_count
        then ["Contains " ++ toString a.vba_module_count ++ " VBA modules"] else [])
      ++ (if 0 < a.connection_count
        then ["Has " ++ toString a.connection_count ++ " external data connections"] else [])
      ++ (if 0 < advancedFunctionCount a.formulas
        then ["Uses " ++ toString (advancedFunctionCount a.formulas) ++ " advanced Excel functions"] else []))
    ∧ (estimateRemediationDifficulty exampleDiffAnalysis).2.2 =
        ["Contains 2 VBA modules", "Uses 3 advanced Excel functions"]
    ∧ (estimateRemediationDifficulty ⟨50, 0, 0, []⟩).2.2 = [] := by
  refine ⟨?_, by decide, by decide⟩
  simp only [estimateRemediationDifficulty]
  split_ifs <;> simp

/-- Python's `str.strip()` whitespace set (ASCII): space, tab, newline,
carriage return, vertical tab, form feed. -/
def pyWs (c : Char) : Bool :=
  c == ' ' || c == '\t' || c == '\n' || c == '\r' || c == '\x0b' || c == '\x0c'

/-- Python's `str.strip()` on character lists. -/
def pyStrip (l : List Char) : List Char :=
  ((l.dropWhile pyWs).reverse.dropWhile pyWs).reverse

/-- Lazy-group step for the source's regular expressions: `(.*?)X` captures
the shortest run of non-newline characters up to the first occurrence of the
delimiter `stop`, returning the captured run and the remainder after the
delimiter; `none` when a newline or the end of input comes first (`.` does
not match a newline). -/
def splitAtChar (stop : Char) : List Char → Option (List Char × List Char)
  | [] => none
  | c :: cs =>
    if c == stop then some ([], cs)
    else if c == '\n' then none
    else
      match splitAtChar stop cs with
      | some (seg, rest) => some (c :: seg, rest)
      | none => none

/-- Tail of `VLOOKUP\((.*?),(.*?),(.*?),.*?\)` after the literal name and
opening parenthesis: three comma-terminated lazy groups, then a discarded
lazy run up to a closing parenthesis. -/
def vlookupTail (t : List Char) : Option (List Char × List Char × List Char) :=
  match splitAtChar ',' t with
  | none => none
  | some (g1, r1) =>
    match splitAtChar ',' r1 with
    | none => none
    | some (g2, r2) =>
      match splitAtChar ',' r2 with
      | none => none
      | some (g3, r3) =>
        match splitAtChar ')' r3 with
        | none => none
        | some _ => some (g1, g2, g3)

/-- Tail of `SUM\((.*?)\)`: one lazy group up to a closing parenthesis. -/
def sumTail (t : List Char) : Option (List Char) :=
  match splitAtChar ')' t with
  | none => none
  | some (g1, _) => some g1

/-- Tail of `SUMIFS\((.*?),(.*?)\)`: a comma-terminated lazy group then a
lazy group up to a closing parenthesis. -/
def sumifsTail (t : List Char) : Option (List Char × List Char) :=
  match splitAtChar ',' t with
  | none => none
  | some (g1, r1) =>
    match splitAtChar ')' r1 with
    | none => none
    | some (g2, _) => some (g1, g2)

/-- Tail of `IF\((.*?),(.*?),(.*?)\)`: two comma-terminated lazy groups then
a lazy group up to a closing parenthesis. -/
def ifTail (t : List Char) : Option (List Char × List Char × List Char) :=
  match splitAtChar ',' t with
  | none => none
  | some (g1, r1) =>
    match splitAtChar ',' r1 with
    | none => none
    | some (g2, r2) =>
      match splitAtChar ')' r2 with
      | none => none
      | some (g3, _) => some (g1, g2, g3)

/-- Case-insensitive prefix test against a lowercase pattern, modelling the
literal part of an `re.IGNORECASE` pattern. -/
def leadsWithCI : List Char → List Char → Bool
  | [], _ => true
  | _ :: _, [] => false
  | p :: ps, c :: cs => p == c.toLower && leadsWithCI ps cs

/-- `re.search` for the source's patterns: scan left to right for the first
position where the literal name (case-insensitively) and then the tail
matcher succeed, returning the tail matcher's captures. -/
def searchFrom {α : Type} (name : List Char) (tm : List Char → Option α) :
    List Char → Option α
  | [] => none
  | c :: cs =>
    if leadsWithCI name (c :: cs) then
      match tm ((c :: cs).drop name.length) with
      | some r => some r
      | none => searchFrom name tm cs
    else searchFrom name tm cs

/-- `convert_excel_formula_to_pandas`: strip the input, then try the
VLOOKUP, SUM, SUMIFS and IF patterns in order, first match wins, falling
back to the annotated "no equivalent" string. -/
def convertExcelFormulaToPandas (formula : String) : String :=
  let f := pyStrip formula.data
  let fs := String.mk f
  match searchFrom "vlookup(".data vlookupTail f with
  | some (lv, _, ci) =>
    "# Equivalent to: " ++ fs ++ "\n" ++
      "df.loc[df['key_column'] == " ++ String.mk lv ++
      ", df.columns[" ++ String.mk ci ++ "-1]].values[0]"
  | none =>
  match searchFrom "sum(".data sumTail f with
  | some _ =>
    "# Equivalent to: " ++ fs ++ "\n" ++ "df[relevant_columns].sum()"
  | none =>
  match searchFrom "sumifs(".data sumifsTail f with
  | some _ =>
    "# Equivalent to: " ++ fs ++ "\n" ++
      "df[df['condition_column'] == condition_value]['sum_column'].sum()"
  | none =>
  match searchFrom "if(".data ifTail f with
  | some (c, t, e) =>
    "# Equivalent to: " ++ fs ++ "\n" ++
      "np.where(" ++ String.mk c ++ ", " ++ String.mk t ++ ", " ++ String.mk e ++ ")"
  | none =>
    "# No direct pandas equivalent found for: " ++ fs ++ "\n" ++
      "# Will need custom implementation"

/-- C6: recognition is first-match-wins in the order VLOOKUP, SUM, SUMIFS,
IF, fallback — whenever an earlier pattern matches, the returned text is
that pattern's template regardless of later patterns — and on the input
"=VLOOKUP(A1,B:C,2,FALSE)" the result is the lookup rewrite whose comment
line echoes the original formula. -/
theorem formula_classifier_order :
    (∀ s : String, ∀ lv ta ci,
      searchFrom "vlookup(".data vlookupTail (pyStrip s.data) = some (lv, ta, ci) →
      convertExcelFormulaToPandas s =
        "# Equivalent to: " ++ String.mk (pyStrip s.data) ++ "\n" ++
          "df.loc[df['key_column'] == " ++ String.mk lv ++
          ", df.columns[" ++ String.mk ci ++ "-1]].values[0]")
    ∧ (∀ s : String, ∀ g,
      searchFrom "vlookup(".data vlookupTail (pyStrip s.data) = none →
      searchFrom "sum(".data sumTail (pyStrip s.data) = some g →
      convertExcelFormulaToPandas s =
        "# Equivalent to: " ++ String.mk (pyStrip s.data) ++ "\n" ++
          "df[relevant_columns].sum()")
    ∧ (∀ s : String, ∀ g1 g2,
      searchFrom "vlookup(".data vlookupTail (pyStrip s.data) = none →
      searchFrom "sum(".data sumTail (pyStrip s.data) = none →
      searchFrom "sumifs(".data sumifsTail (pyStrip s.data) = some (g1, g2) →
      convertExcelFormulaToPandas s =
        "# Equivalent to: " ++ String.mk (pyStrip s.data) ++ "\n" ++
          "df[df['condition_column'] == condition_value]['sum_column'].sum()")
    ∧ (∀ s : String, ∀ c t e,
      searchFrom "vlookup(".data vlookupTail (pyStrip s.data) = none →
      searchFrom "sum(".data sumTail (pyStrip s.data) = none →
      searchFrom "sumifs(".data sumifsTail (pyStrip s.data) = none →
      searchFrom "if(".data ifTail (pyStrip s.data) = some (c, t, e) →
      convertExcelFormulaToPandas s =
        "# Equivalent to: " ++ String.mk (pyStrip s.data) ++ "\n" ++
          "np.where(" ++ String.mk c ++ ", " ++ String.mk t ++ ", " ++ String.mk e ++ ")")
    ∧ convertExcelFormulaToPandas "=VLOOKUP(A1,B:C,2,FALSE)" =
        "# Equivalent to: =VLOOKUP(A1,B:C,2,FALSE)\n" ++
          "df.loc[df['key_column'] == A1, df.columns[2-1]].values[0]" := by
  refine ⟨?_, ?_, ?_, ?_, by decide⟩
  · intro s lv ta ci h
    simp only [convertExcelFormulaToPandas, h]
  · intro s g h1 h2
    simp only [convertExcelFormulaToPandas, h1, h2]
  · intro s g1 g2 h1 h2 h3
    simp only [convertExcelFormulaToPandas, h1, h2, h3]
  · intro s c t e h1 h2 h3 h4
    simp only [convertExcelFormulaToPandas, h1, h2, h3, h4]

/-- C7: the classifier is a total function on strings (it is a Lean function
into `String`, so it returns on every input and, being pure, returns the
identical text on repeated calls); whenever none of the four patterns
matches it returns the annotated "no equivalent found" fallback, and the
empty and whitespace-only inputs concretely take that fallback. -/
theorem formula_classifier_total_fallback :
    (∀ s : String,
      searchFrom "vlookup(".data vlookupTail (pyStrip s.data) = none →
      searchFrom "sum(".data sumTail (pyStrip s.data) = none →
      searchFrom "sumifs(".data sumifsTail (pyStrip s.data) = none →
      searchFrom "if(".data ifTail (pyStrip s.data) = none →
      convertExcelFormulaToPandas s =
        "# No direct pandas equivalent found for: " ++ String.mk (pyStrip s.data) ++
          "\n" ++ "# Will need custom implementation")
    ∧ convertExcelFormulaToPandas "" =
        "# No direct pandas equivalent found for: \n# Will need custom implementation"
    ∧ convertExcelFormulaToPandas "   " =
        "# No direct pandas equivalent found for: \n# Will need custom implementation"
    ∧ convertExcelFormulaToPandas "=FOO(1)" =
        "# No direct pandas equivalent found for: =FOO(1)\n# Will need custom implementation" := by
  refine ⟨?_, by decide, by decide, by decide⟩
  intro s h1 h2 h3 h4
  simp only [convertExcelFormulaToPandas, h1, h2, h3, h4]

/-- Greedy `[^;]+` step: the maximal run of non-semicolon characters and the
remainder from the first semicolon on. -/
def takeNonSemi : List Char → List Char × List Char
  | [] => ([], [])
  | c :: cs =>
    if c == ';' then ([], c :: cs)
    else
      let (a, b) := takeNonSemi cs
      (c :: a, b)

/-- Greedy `[^"]+` step: the maximal run of non-quote characters and the
remainder from the first double quote on. -/
def takeNonQuote : List Char → List Char × List Char
  | [] => ([], [])
  | c :: cs =>
    if c == '"' then ([], c :: cs)
    else
      let (a, b) := takeNonQuote cs
      (c :: a, b)

/-- Match attempt at the current position for a connection pattern
`Key=([^;]+)` (case-insensitive key): the captured value and the remainder
after the whole match, or `none`. -/
def tryKeyVal (key : List Char) (t : List Char) : Option (String × List Char) :=
  if leadsWithCI key t then
    let rest := t.drop key.length
    match rest with
    | [] => none
    | r :: rs =>
      if r == ';' then none
      else
        let (g, after) := takeNonSemi (r :: rs)
        some (String.mk g, after)
  else none

/-- Quoted-argument step `"([^"]+)"`: the non-empty captured text between a
pair of double quotes and the remainder after the closing quote. -/
def quotedArg : List Char → Option (List Char × List Char)
  | '"' :: rest =>
    match takeNonQuote rest with
    | (g, '"' :: rest2) => if g.isEmpty then none else some (g, rest2)
    | _ => none
  | _ => none

/-- Match attempt for `Open\s+"([^"]+)"`: the literal `open`
(case-insensitive), at least one whitespace character, then a quoted
argument. -/
def tryOpenCall (t : List Char) : Option (String × List Char) :=
  if leadsWithCI "open".data t then
    let r := t.drop 4
    match r with
    | [] => none
    | c :: cs =>
      if pyWs c then
        match quotedArg (cs.dropWhile pyWs) with
        | some (g, rest) => some (String.mk g, rest)
        | none => none
      else none
  else none

/-- Match attempt for `Workbooks.Open\s*\("([^"]+)"\)`: the literal
`workbooks`, any single non-newline character (the unescaped `.` of the
source pattern), the literal `open`, optional whitespace, then a
parenthesised quoted argument. -/
def tryWorkbooksOpen (t : List Char) : Option (String × List Char) :=
  if leadsWithCI "workbooks".data t then
    match t.drop 9 with
    | [] => none
    | d :: ds =>
      if d == '\n' then none
      else if leadsWithCI "open".data ds then
        match (ds.drop 4).dropWhile pyWs with
        | '(' :: r2 =>
          match quotedArg r2 with
          | some (g, ')' :: rest) => some (String.mk g, rest)
          | _ => none
        | _ => none
      else none
  else none

/-- Match attempt for `GetOpenFilename\s*\("([^"]+)"`: the literal name,
optional whitespace, an opening parenthesis, then a quoted argument (no
closing parenthesis required by the source pattern). -/
def tryGetOpenFilename (t : List Char) : Option (String × List Char) :=
  if leadsWithCI "getopenfilename".data t then
    match (t.drop 15).dropWhile pyWs with
    | '(' :: r2 =>
      match quotedArg r2 with
      | some (g, rest) => some (String.mk g, rest)
      | none => none
    | _ => none
  else none

/-- `re.findall` driver: scan left to right; at a match emit the capture and
continue after the matched text, otherwise advance one character. The fuel
argument (instantiated with the text's length, an upper bound on the number
of steps since every step consumes at least one character) makes the
recursion structural. -/
def scanAll (tm : List Char → Option (String × List Char)) :
    Nat → List Char → List String
  | 0, _ => []
  | _ + 1, [] => []
  | fuel + 1, c :: cs =>
    match tm (c :: cs) with
    | some (g, rest) => g :: scanAll tm fuel rest
    | none => scanAll tm fuel cs

/-- All matches of the eight patterns of `extract_data_sources_from_vba`, in
the source's order (five connection patterns, then three file patterns),
before duplicate removal. -/
def allPatternMatches (vba : String) : List String :=
  let t := vba.data
  let n := t.length
  scanAll (tryKeyVal "provider=".data) n t
    ++ scanAll (tryKeyVal "data source=".data) n t
    ++ scanAll (tryKeyVal "server=".data) n t
    ++ scanAll (tryKeyVal "database=".data) n t
    ++ scanAll (tryKeyVal "dsn=".data) n t
    ++ scanAll tryOpenCall n t
    ++ scanAll tryWorkbooksOpen n t
    ++ scanAll tryGetOpenFilename n t

/-- `extract_data_sources_from_vba`: the matches of all patterns with
duplicates removed (`list(set(...))`; the Python set fixes no order, so the
model dedups the concatenation, and the claims proved about the result are
order-insensitive: membership and freedom from duplicates). -/
def extractDataSourcesFromVba (vba : String) : List String :=
  (allPatternMatches vba).dedup

/-- A macro text in which the `Provider=...;Data Source=...;` fragment
occurs twice. -/
def exampleVbaText : String :=
  "Provider=SQLOLEDB;Data Source=myserver;Provider=SQLOLEDB;Data Source=myserver;"

/-- C8: the extractor returns the duplicate-free union of the pattern
matches — its result has no duplicates and holds exactly the strings some
pattern matched — the empty input yields an empty result, and the doubled
`Provider=SQLOLEDB;Data Source=myserver;` text yields both fragments
without duplication. -/
theorem data_source_extractor_dedup_union :
    (∀ vba : String, (extractDataSourcesFromVba vba).Nodup
      ∧ ∀ s : String, s ∈ extractDataSourcesFromVba vba ↔ s ∈ allPatternMatches vba)
    ∧ extractDataSourcesFromVba "" = []
    ∧ "SQLOLEDB" ∈ extractDataSourcesFromVba exampleVbaText
    ∧ "myserver" ∈ extractDataSourcesFromVba exampleVbaText
    ∧ (extractDataSourcesFromVba exampleVbaText).length = 2 := by
  refine ⟨?_, by decide, by decide, by decide, by decide⟩
  intro vba
  exact ⟨List.nodup_dedup _, fun s => List.mem_dedup⟩

/-- Python's `str.replace(old, '')` with a non-empty `old`: remove all
non-overlapping occurrences left to right. The fuel argument (instantiated
with the text's length, an upper bound on the steps since every step
consumes at least one character) makes the recursion structural. -/
def removeAllAux (old : List Char) : Nat → List Char → List Char
  | 0, l => l
  | _ + 1, [] => []
  | fuel + 1, c :: cs =>
    if leadsWith old (c :: cs) then removeAllAux old fuel ((c :: cs).drop old.length)
    else c :: removeAllAux old fuel cs

/-- Python's `str.replace(old, '')` on strings. -/
def removeAll (s : String) (old : String) : String :=
  String.mk (removeAllAux old.data s.data.length s.data)

/-- Python's `str.endswith` on strings. -/
def endsList (s suffix : List Char) : Bool :=
  leadsWith suffix.reverse s.reverse

/-- Entity records of `create_data_model_recommendation`:
`{'name': ..., 'source': 'Sheet: ...'}`. -/
structure Entity where
  name : String
  source : String
deriving DecidableEq

/-- Relationship records of `create_data_model_recommendation`:
`{'from': ..., 'to': ..., 'type': 'lookup'}` (the Python keys `from`, `to`,
`type` are Lean keywords or builtins, hence the field names). -/
structure Relationship where
  fromSheet : String
  toSheet : String
  relType : String
deriving DecidableEq

/-- The result record of `create_data_model_recommendation`. -/
structure DataModelRec where
  entities : List Entity
  relationships : List Relationship
  recommendation : String

/-- The data-sheet suffix vocabulary of `create_data_model_recommendation`. -/
def entitySuffixes : List String :=
  ["data", "table", "list", "master", "info"]

/-- The entity-candidate condition: the lowered sheet name contains one of
the suffix substrings. -/
def sheetIsEntity (sheet : String) : Bool :=
  entitySuffixes.any fun suf => containsSub (lowerChars sheet.data) suf.data

/-- The candidate-name expression of the source:
`sheet.replace('Data', '').replace('Table', '').replace('List', '').strip()`
(exact-case replacements; `Master` and `Info` are not replaced). -/
def entityName (sheet : String) : String :=
  String.mk (pyStrip (removeAll (removeAll (removeAll sheet "Data") "Table") "List").data)

/-- The entity-extraction loop of `create_data_model_recommendation`. -/
def extractEntities (sheets : List String) : List Entity :=
  (sheets.filter sheetIsEntity).map fun s => ⟨entityName s, "Sheet: " ++ s⟩

/-- The lookup condition of the relationship loop, with Python's operator
precedence: `'vlookup' in t or ('index' in t and 'match' in t)`. -/
def isPotentialLookup (t : List Char) : Bool :=
  containsSub t "vlookup".data || (containsSub t "index".data && containsSub t "match".data)

/-- One iteration of the relationship loop of
`create_data_model_recommendation`: the relationship records this formula
appends. -/
def relationshipsFor (sheets : List String) (entities : List Entity)
    (f : FormulaRec) : List Relationship :=
  let ft := lowerChars f.formula.data
  if isPotentialLookup ft then
    let source_sheet := f.sheet
    if source_sheet ≠ "" ∧ entities.any fun e => endsList e.source.data source_sheet.data then
      (sheets.filter fun sh => sh != source_sheet && containsSub ft sh.data).map
        fun sh => ⟨source_sheet, sh, "lookup"⟩
    else []
  else []

/-- `create_data_model_recommendation`: entities from sheet names,
relationships from the first 50 formulas, and the fixed recommendation
text. -/
def createDataModelRecommendation (a : Analysis) : DataModelRec :=
  let sheets := a.sheet_names
  let entities := extractEntities sheets
  let relationships := (a.formulas.take 50).flatMap (relationshipsFor sheets entities)
  ⟨entities, relationships,
    "Based on the EUDA analysis, consider creating a normalized data model with the entities listed above. Use SQLAlchemy ORM to model these entities and their relationships in Python."⟩

/-- A snapshot with the claim's example sheet names and no formulas. -/
def exampleSheetsAnalysis : Analysis :=
  ⟨3, ["CustomerData", "OrderTable", "Config"], 0, [], 0, [], 0, []⟩

/-- A snapshot with a sheet whose name contains `master`. -/
def masterSheetAnalysis : Analysis :=
  ⟨1, ["CustMaster"], 0, [], 0, [], 0, []⟩

/-- C9 counterexample: the sheet name "CustMaster" case-insensitively
contains "master", so it becomes an entity candidate, but its candidate
name is the unchanged "CustMaster", not the stripped "Cust" the claim
requires. -/
theorem entity_name_master_not_stripped :
    (createDataModelRecommendation masterSheetAnalysis).entities =
      [⟨"CustMaster", "Sheet: CustMaster"⟩]
    ∧ ("CustMaster" : String) ≠ "Cust" := by
  constructor
  · decide
  · decide

/-- C9 amended: entity candidates are exactly the sheet names that
case-insensitively contain one of data/table/list/master/info, but a
candidate's name removes only the exact-case substrings "Data", "Table" and
"List" (then trims whitespace) — occurrences of "Master", "Info" or
differently-cased variants remain; the example sheets ["CustomerData",
"OrderTable", "Config"] still yield exactly the candidates "Customer" and
"Order" and none for "Config". -/
theorem entity_extraction_amended :
    (∀ a : Analysis, (createDataModelRecommendation a).entities =
      (a.sheet_names.filter sheetIsEntity).map
        fun s => ⟨entityName s, "Sheet: " ++ s⟩)
    ∧ (∀ s : String, sheetIsEntity s =
        entitySuffixes.any fun suf => containsSub (lowerChars s.data) suf.data)
    ∧ (∀ s : String, entityName s =
        String.mk (pyStrip (removeAll (removeAll (removeAll s "Data") "Table") "List").data))
    ∧ (createDataModelRecommendation exampleSheetsAnalysis).entities =
        [⟨"Customer", "Sheet: CustomerData"⟩, ⟨"Order", "Sheet: OrderTable"⟩]
    ∧ (createDataModelRecommendation masterSheetAnalysis).entities =
        [⟨"CustMaster", "Sheet: CustMaster"⟩] := by
  exact ⟨fun a => rfl, fun s => rfl, fun s => rfl, by decide, by decide⟩

/-- A snapshot whose single formula contains `index` but neither `match`
nor `vlookup`, on sheets otherwise set up so that a qualifying formula
would yield a relationship. -/
def indexOnlyAnalysis : Analysis :=
  ⟨2, ["RefData", "other"], 1, [⟨"RefData", "$A$1", "=INDEX(other,5)"⟩], 0, [], 0, []⟩

/-- The same snapshot with a formula containing `match` but neither `index`
nor `vlookup`. -/
def matchOnlyAnalysis : Analysis :=
  ⟨2, ["RefData", "other"], 1, [⟨"RefData", "$A$1", "=XMATCH(other,5)"⟩], 0, [], 0, []⟩

/-- The same snapshot with a formula containing both `index` and `match`. -/
def indexMatchAnalysis : Analysis :=
  ⟨2, ["RefData", "other"], 1, [⟨"RefData", "$A$1", "=INDEX(other,MATCH(1,0))"⟩], 0, [], 0, []⟩

/-- The same snapshot with a formula containing `vlookup` only. -/
def vlookupOnlyAnalysis : Analysis :=
  ⟨2, ["RefData", "other"], 1, [⟨"RefData", "$A$1", "=VLOOKUP(other,2,0)"⟩], 0, [], 0, []⟩

/-- C10: the lookup condition groups as vlookup OR (index AND match); a
formula failing that condition contributes no relationship records, and the
recommender's relationship list is the concatenation of the per-formula
contributions over the first 50 formulas. Concretely, on a snapshot where a
qualifying formula does yield a relationship, the index-only and match-only
variants yield none while the vlookup and index-and-match variants yield
one. -/
theorem relationship_condition_grouping :
    (∀ t : List Char, isPotentialLookup t =
      (containsSub t "vlookup".data
        || (containsSub t "index".data && containsSub t "match".data)))
    ∧ (∀ a : Analysis, (createDataModelRecommendation a).relationships =
        (a.formulas.take 50).flatMap
          (relationshipsFor a.sheet_names (extractEntities a.sheet_names)))
    ∧ (∀ sheets entities f, isPotentialLookup (lowerChars f.formula.data) = false →
        relationshipsFor sheets entities f = [])
    ∧ (createDataModelRecommendation indexOnlyAnalysis).relationships = []
    ∧ (createDataModelRecommendation matchOnlyAnalysis).relationships = []
    ∧ (createDataModelRecommendation indexMatchAnalysis).relationships =
        [⟨"RefData", "other", "lookup"⟩]
    ∧ (createDataModelRecommendation vlookupOnlyAnalysis).relationships =
        [⟨"RefData", "other", "lookup"⟩] := by
  refine ⟨fun t => rfl, fun a => rfl, ?_, by decide, by decide, by decide, by decide⟩
  intro sheets entities f h
  simp only [relationshipsFor, h]
  exact if_neg (by simp)

end EUDA
